import Mathlib

/-!
Verification of the T2 offline-analysis toolkit's analytical core.

This development gives a shallow embedding, in Lean 4, of the pure data
transformations performed by the analysis modules of the repository
(`analysis/coverage_analysis.py`, `analysis/gap_analysis.py`,
`analysis/location_analysis.py`, `analysis/clustering.py`,
`analysis/predictive_modeling.py`, `analysis/competitor_analysis.py`,
`utils/file_operations.py`), together with theorems settling the stated
properties of those transformations.

Modelling conventions:
* pandas rows become `LocationRecord` values; a missing (NaN) cell of a
  numeric column is `Option.none`, and every numeric comparison against a
  missing cell is `false`, matching NaN comparison semantics.
* machine floats are modelled by `ℚ`; the geodesic distance function of
  `geopy` is an abstract parameter `dist : ℚ × ℚ → ℚ × ℚ → ℚ` since its
  value is irrelevant to the control flow being verified.
* Python strings are `List Char`; `str.lower` is modelled by `pyLower`,
  which lowercases the ASCII and Cyrillic letters (the only scripts the
  program's substring tokens draw from).
* clustering/regression library calls (`KMeans`, `DBSCAN`,
  `RandomForestRegressor`, ...) are abstract function parameters: the
  theorems below concern the orchestration around them, which is the
  code under test.
-/

namespace T2

/-- Python `str.lower`, restricted to ASCII and the Cyrillic block
(`А`..`Я`, `Ё`), which covers every character of the operator tokens
`tele2`, `т2`, `мтс`, `mts`, `билайн`, `beeline`, `мегафон`, `megafon`. -/
def pyLower (c : Char) : Char :=
  if 0x410 ≤ c.toNat ∧ c.toNat ≤ 0x42F then Char.ofNat (c.toNat + 0x20)
  else if c.toNat = 0x401 then Char.ofNat 0x451
  else c.toLower

/-- Lowercasing of a whole string (`name.lower()` / `case=False`). -/
def lowerStr (s : List Char) : List Char := s.map pyLower

/-- Test that `pat` starts `hay` (character-wise). -/
def isSubAt : List Char → List Char → Bool
  | [], _ => true
  | _ :: _, [] => false
  | a :: as, b :: bs => a == b && isSubAt as bs

/-- Python substring containment `pat in hay`. -/
def containsSub (pat hay : List Char) : Bool :=
  match hay with
  | [] => pat.isEmpty
  | _ :: rest => isSubAt pat hay || containsSub pat rest

/-- A pandas cell of the `name` column: `none` models NaN. -/
abbrev NameCell := Option (List Char)

/-- Python `str(name)` applied to a name cell: a missing pandas cell is the
float NaN, which `str` renders as `"nan"`. -/
def strOfName : NameCell → List Char
  | none => "nan".toList
  | some s => s

/-- Embeds `GapAnalyzer._identify_operator` / `CompetitorAnalyzer._identify_operator`
(`analysis/gap_analysis.py`, `analysis/competitor_analysis.py`): ordered
case-insensitive substring rules, own-brand tokens first. -/
def identify_operator (name : NameCell) : String :=
  let name_lower := lowerStr (strOfName name)
  if containsSub "tele2".toList name_lower || containsSub "т2".toList name_lower then
    "Tele2"
  else if containsSub "мтс".toList name_lower || containsSub "mts".toList name_lower then
    "МТС"
  else if containsSub "билайн".toList name_lower || containsSub "beeline".toList name_lower then
    "Билайн"
  else if containsSub "мегафон".toList name_lower || containsSub "megafon".toList name_lower then
    "МегаФон"
  else
    "Другой"

/-- One row of the combined location table.  The schema is the required and
optional columns the analysis modules read; a `none` in an optional numeric
column models a NaN cell. -/
structure LocationRecord where
  name : NameCell
  address : NameCell
  city : String
  latitude : Option ℚ
  longitude : Option ℚ
  rating : Option ℚ
  reviews_count : Option ℚ
  nearby_shopping_centers_count : Option ℚ
  nearby_metro_count : Option ℚ
  anchor_tenants_count : Option ℚ
  public_transport_stops_count : Option ℚ
  deriving DecidableEq, Repr, Inhabited

/-- Embeds `df[['latitude','longitude']].dropna()` on one row: the coordinate pair
when both cells are present. -/
def recCoords (r : LocationRecord) : Option (ℚ × ℚ) :=
  match r.latitude, r.longitude with
  | some la, some lo => some (la, lo)
  | _, _ => none

/-- A pandas comparison `column > threshold`: `false` on a NaN cell. -/
def optGt (cell : Option ℚ) (threshold : ℚ) : Bool :=
  match cell with
  | some v => threshold < v
  | none => false

/-- The row condition of `df['name'].str.contains('Tele2|Т2', case=False,
na=False)`: case-insensitive substring match of either token, `false` on a
missing name. -/
def tele2NameMatch (name : NameCell) : Bool :=
  match name with
  | none => false
  | some s => containsSub "tele2".toList (lowerStr s) || containsSub "т2".toList (lowerStr s)

/-- Embeds `CoverageAnalyzer._filter_tele2_locations` (also inlined in
`gap_analysis.py`, `location_analysis.py`, `predictive_modeling.py`):
keep the rows whose name matches `Tele2|Т2` case-insensitively. -/
def filter_tele2_locations (df : List LocationRecord) : List LocationRecord :=
  df.filter (fun r => tele2NameMatch r.name)

/-- The efficiency bucketing of `LocationAnalyzer.analyze_efficiency`
(`analysis/location_analysis.py`): `pd.cut(score, bins=[0,10,15,20,25],
labels=[...])` with pandas defaults (`right=True`, `include_lowest=False`),
whose bins are the half-open intervals `(0,10]`, `(10,15]`, `(15,20]`,
`(20,25]`; a score outside `(0,25]` falls in no bin and gets the missing
label NaN, modelled as `none`. -/
def efficiency_category (score : ℚ) : Option String :=
  if 0 < score ∧ score ≤ 10 then some "Низкая"
  else if 10 < score ∧ score ≤ 15 then some "Средняя"
  else if 15 < score ∧ score ≤ 20 then some "Высокая"
  else if 20 < score ∧ score ≤ 25 then some "Очень высокая"
  else none

/-- The density labelling of `CoverageAnalyzer._calculate_density_metrics`
(`analysis/coverage_analysis.py`, lines 93-98): `if avg > 5` low,
`elif avg > 2` medium, `else` high. -/
def coverage_density (avg_distance : ℚ) : String :=
  if avg_distance > 5 then "Низкая"
  else if avg_distance > 2 then "Средняя"
  else "Высокая"

/-- The abstract geodesic distance of `geopy` (`geodesic(a, b).km`). -/
abbrev Dist := ℚ × ℚ → ℚ × ℚ → ℚ

/-- Embeds `tele2_df[['latitude','longitude']].dropna().values` where `tele2_df` is
the own-brand name filter of the full table (`analysis/gap_analysis.py`,
lines 31, 94, 157). -/
def tele2_coords (df : List LocationRecord) : List (ℚ × ℚ) :=
  (filter_tele2_locations df).filterMap recCoords

/-- The inner proximity loop of the gap analyses: some own-brand coordinate
lies strictly within `radius` km of `c`. -/
def hasNearbyTele2 (dist : Dist) (radius : ℚ) (c : ℚ × ℚ)
    (tcoords : List (ℚ × ℚ)) : Bool :=
  tcoords.any (fun t => dist c t < radius)

/-- One value of the `population_gaps` mapping built by
`GapAnalyzer._analyze_population_gaps`. -/
structure PopulationGapEntry where
  population : ℚ
  locations : ℕ
  per_100k : ℚ
  sufficiency : String
  deriving DecidableEq, Repr

/-- The entry built for one city: `per_capita = location_count / population
* 100000`, sufficient iff `per_capita >= 2` (`analysis/gap_analysis.py`,
lines 71-78). -/
def mkPopulationEntry (population : ℚ) (location_count : ℕ) : PopulationGapEntry :=
  let per_capita : ℚ := location_count / population * 100000
  ⟨population, location_count, per_capita,
   if per_capita ≥ 2 then "Достаточно" else "Недостаточно"⟩

/-- The static city-population reference of
`GapAnalyzer._load_population_data`. -/
def population_data : List (String × ℚ) :=
  [("Москва", 12600000), ("Санкт-Петербург", 5400000), ("Новосибирск", 1620000),
   ("Екатеринбург", 1490000), ("Казань", 1250000)]

/-- Embeds `GapAnalyzer._analyze_population_gaps`: iterate the population
reference, and for each city with positive population record the count of
own-brand rows of that city together with the per-100k ratio and the
sufficiency flag.  The reference is a Python dict, so its keys are
pairwise distinct. -/
def analyze_population_gaps (popData : List (String × ℚ))
    (tele2_df : List LocationRecord) : List (String × PopulationGapEntry) :=
  popData.filterMap (fun cp =>
    if 0 < cp.2 then
      some (cp.1, mkPopulationEntry cp.2
        ((tele2_df.filter (fun r => r.city == cp.1)).length))
    else none)

/-- The selection of `developed_areas` (`analysis/gap_analysis.py`, lines
87-91): shopping centers `> 2`, metro `> 0`, anchor tenants `> 1`; a NaN
cell fails every comparison. -/
def developed_areas (df : List LocationRecord) : List LocationRecord :=
  df.filter (fun r =>
    optGt r.nearby_shopping_centers_count 2 &&
    optGt r.nearby_metro_count 0 &&
    optGt r.anchor_tenants_count 1)

/-- One guarded additive term of the infrastructure score: the source adds
`f value` when `area.get(column, 0) > 0` and nothing otherwise; a missing
or NaN cell contributes nothing. -/
def scoreTerm (cell : Option ℚ) (f : ℚ → ℚ) : ℚ :=
  match cell with
  | some v => if 0 < v then f v else 0
  | none => 0

/-- Embeds `GapAnalyzer._calculate_infrastructure_score`: shopping centers × 2 +
metro × 3 + anchor tenants × 1.5 + min(transit stops × 0.5, 3), each term
guarded by a positivity test on the cell. -/
def infrastructure_score (r : LocationRecord) : ℚ :=
  scoreTerm r.nearby_shopping_centers_count (fun v => v * 2) +
  scoreTerm r.nearby_metro_count (fun v => v * 3) +
  scoreTerm r.anchor_tenants_count (fun v => v * (3/2)) +
  scoreTerm r.public_transport_stops_count (fun v => min (v * (1/2)) 3)

/-- The body of both gap loops of `gap_analysis.py`: a row is appended to
`gap_areas` when its coordinates are present (`continue` otherwise) and no
own-brand coordinate lies strictly within `radius` km. -/
def keepGapRow (dist : Dist) (radius : ℚ) (tcoords : List (ℚ × ℚ))
    (r : LocationRecord) : Bool :=
  match recCoords r with
  | none => false
  | some c => !hasNearbyTele2 dist radius c tcoords

/-- The rows that `GapAnalyzer._analyze_infrastructure_gaps` reports: a
developed area is kept when its coordinates are present and no own-brand
coordinate lies strictly within 2.0 km; rows with a missing coordinate are
skipped by the `continue`. -/
def infrastructure_gap_records (dist : Dist) (all_df : List LocationRecord)
    (tcoords : List (ℚ × ℚ)) : List LocationRecord :=
  (developed_areas all_df).filter (keepGapRow dist 2 tcoords)

/-- One element of `infrastructure_gaps['gap_areas']`. -/
structure InfrastructureGapEntry where
  location : NameCell
  address : NameCell
  score : ℚ
  deriving DecidableEq, Repr

/-- The `gap_areas` list built by `_analyze_infrastructure_gaps`: one entry
per reported row, carrying name, address and the weighted score. -/
def infrastructure_gap_areas (dist : Dist) (all_df : List LocationRecord)
    (tcoords : List (ℚ × ℚ)) : List InfrastructureGapEntry :=
  (infrastructure_gap_records dist all_df tcoords).map
    (fun r => ⟨r.name, r.address, infrastructure_score r⟩)

/-- The competitor-row condition of `_analyze_competitive_gaps` (lines
151-154): operator label in {МТС, Билайн, МегаФон} and not in
{Tele2, Другой}. -/
def isCompetitor (r : LocationRecord) : Bool :=
  let op := identify_operator r.name
  (op == "МТС" || op == "Билайн" || op == "МегаФон") &&
  !(op == "Tele2" || op == "Другой")

/-- Embeds `competitor_areas` of `_analyze_competitive_gaps`. -/
def competitor_areas (df : List LocationRecord) : List LocationRecord :=
  df.filter isCompetitor

/-- The rows that `_analyze_competitive_gaps` reports: a competitor row is
kept when its coordinates are present and no own-brand coordinate lies
strictly within 1.5 km. -/
def competitive_gap_records (dist : Dist) (all_df : List LocationRecord)
    (tcoords : List (ℚ × ℚ)) : List LocationRecord :=
  (competitor_areas all_df).filter (keepGapRow dist (3/2) tcoords)

/-- One element of `competitive_gaps['gap_areas']`. -/
structure CompetitiveGapEntry where
  location : NameCell
  address : NameCell
  competitor : String
  competitor_rating : Option ℚ
  deriving DecidableEq, Repr

/-- The `gap_areas` list built by `_analyze_competitive_gaps`. -/
def competitive_gap_areas (dist : Dist) (all_df : List LocationRecord)
    (tcoords : List (ℚ × ℚ)) : List CompetitiveGapEntry :=
  (competitive_gap_records dist all_df tcoords).map
    (fun r => ⟨r.name, r.address, identify_operator r.name, r.rating⟩)

/-- Embeds `_analyze_competitive_gaps` as invoked from `analyze_gaps`: the
own-brand coordinates come from the name-filtered table. -/
def analyze_competitive_gap_records (dist : Dist)
    (df : List LocationRecord) : List LocationRecord :=
  competitive_gap_records dist df (tele2_coords df)

/-- Embeds `_analyze_infrastructure_gaps` as invoked from `analyze_gaps`. -/
def analyze_infrastructure_gap_records (dist : Dist)
    (df : List LocationRecord) : List LocationRecord :=
  infrastructure_gap_records dist df (tele2_coords df)

/-- Row count of the feature matrix returned by
`DataClustering._prepare_clustering_data`: the embedded schema carries all
eleven numeric feature columns, so the matrix (after `fillna(0)` and
standardisation, both row-count preserving) has one row per record. -/
def prepare_clustering_rows (df : List LocationRecord) : ℕ := df.length

/-- Embeds `DataClustering.perform_clustering` around its data-sparsity guard:
with fewer than 10 feature rows the method returns the empty dict `{}`
(here `none`) without invoking KMeans/DBSCAN; otherwise the clustering
computation (an abstract parameter) runs on the data. -/
def perform_clustering {α : Type} (clusterAlgos : List LocationRecord → α)
    (df : List LocationRecord) : Option α :=
  if prepare_clustering_rows df < 10 then none else some (clusterAlgos df)

/-- Embeds `PredictiveModeling.build_models` around its data-sparsity guard: the
table is first filtered to own-brand rows; with fewer than 20 of them the
method returns the empty dict `{}` (here `none`) without fitting any
regressor. -/
def build_models {α : Type} (modelAlgos : List LocationRecord → α)
    (df : List LocationRecord) : Option α :=
  let tele2_df := filter_tele2_locations df
  if tele2_df.length < 20 then none else some (modelAlgos tele2_df)

/-- Embeds `pandas.Series.unique`: the distinct values in first-appearance
order. -/
def uniqueKeep {α : Type} [DecidableEq α] : List α → List α
  | [] => []
  | a :: rest => a :: uniqueKeep (rest.filter (fun b => !(b == a)))
termination_by l => l.length
decreasing_by
  simp only [List.length_cons]
  exact Nat.lt_succ_of_le (List.length_filter_le _ _)

/-- One value of the coverage metrics mapping (numbers and density
labels). -/
inductive MetricVal where
  | num (v : ℚ)
  | str (s : String)
  deriving DecidableEq, Repr

/-- Embeds `df[df['city'] == city]`. -/
def cityRows (df : List LocationRecord) (city : String) : List LocationRecord :=
  df.filter (fun r => r.city == city)

/-- Embeds `city_df[['latitude','longitude']].dropna().values`. -/
def cityCoords (df : List LocationRecord) (city : String) : List (ℚ × ℚ) :=
  (cityRows df city).filterMap recCoords

/-- The double loop `for i ... for j in range(i+1, ...)` collecting the
distances of all unordered coordinate pairs. -/
def pairDists (dist : Dist) : List (ℚ × ℚ) → List ℚ
  | [] => []
  | c :: rest => rest.map (fun c2 => dist c c2) ++ pairDists dist rest

/-- The metric entries `_calculate_density_metrics` emits for one city:
nothing unless the city has more than one row and at least one coordinate
pair, otherwise the mean pairwise distance and its density label. -/
def density_city_entries (dist : Dist) (df : List LocationRecord)
    (city : String) : List (String × MetricVal) :=
  if 1 < (cityRows df city).length then
    let distances := pairDists dist (cityCoords df city)
    if distances.isEmpty then []
    else
      let avg_distance := distances.sum / distances.length
      [(city ++ "_avg_distance_km", .num avg_distance),
       (city ++ "_coverage_density", .str (coverage_density avg_distance))]
  else []

/-- Embeds `CoverageAnalyzer._calculate_density_metrics`: per-city entries in the
first-appearance order of cities. -/
def calculate_density_metrics (dist : Dist)
    (df : List LocationRecord) : List (String × MetricVal) :=
  (uniqueKeep (df.map (fun r => r.city))).flatMap (density_city_entries dist df)

/-- Embeds `df['city'].nunique()`. -/
def nuniqueCities (df : List LocationRecord) : ℕ :=
  (uniqueKeep (df.map (fun r => r.city))).length

/-- Embeds `CoverageAnalyzer._calculate_coverage_metrics`: the empty dict on an
empty table, otherwise the three headline numbers followed by the density
entries. -/
def calculate_coverage_metrics (dist : Dist)
    (df : List LocationRecord) : List (String × MetricVal) :=
  if df.length = 0 then []
  else
    [("total_locations", .num df.length),
     ("cities_covered", .num (nuniqueCities df)),
     ("avg_locations_per_city",
      .num (if 0 < nuniqueCities df then (df.length : ℚ) / nuniqueCities df else 0))]
    ++ calculate_density_metrics dist df

/-- The dict returned by `CoverageAnalyzer._identify_coverage_gaps`: the
counts are absent on the small-input early return, which only carries
`gap_locations = []`. -/
structure CoverageGapResult where
  gap_clusters_count : Option ℕ
  gap_locations_count : Option ℕ
  gap_locations : List (ℚ × ℚ)
  deriving DecidableEq, Repr

/-- The abstract `DBSCAN(eps=0.02, min_samples=3).fit(coords).labels_` call:
one integer label per coordinate. -/
abbrev DbscanFn := List (ℚ × ℚ) → List ℤ

/-- Embeds `np.argmin` over the tail of a list, carrying the index `i` of the next
element and the best index/value so far; ties keep the earlier index. -/
def argminAux : ℕ → ℕ → ℚ → List ℚ → ℕ
  | _, best, _, [] => best
  | i, best, bestVal, x :: xs =>
    if x < bestVal then argminAux (i + 1) i x xs
    else argminAux (i + 1) best bestVal xs

/-- Embeds `np.argmin` on a list of distances (first index of the minimum). -/
def argminList : List ℚ → ℕ
  | [] => 0
  | x :: xs => argminAux 1 0 x xs

/-- Embeds `CoverageAnalyzer._identify_coverage_gaps`: cluster all coordinates,
mark the clusters nearest to some own-brand row, and report the
coordinates of the remaining clusters.  The source's only column write,
`all_df['cluster'] = ...`, happens on `all_df.copy()`, so the caller's
table is untouched; label lookup is modelled with `getD` under the DBSCAN
contract of one label per input point. -/
def identify_coverage_gaps (dbscan : DbscanFn) (dist : Dist)
    (all_df tele2_df : List LocationRecord) : CoverageGapResult :=
  let all_coords := all_df.filterMap recCoords
  if all_coords.length < 2 then ⟨none, none, []⟩
  else
    let labels := dbscan all_coords
    let tele2_clusters := tele2_df.filterMap (fun r =>
      match recCoords r with
      | none => none
      | some c =>
        let distances := all_coords.map (fun center => dist c center)
        if distances.isEmpty then none
        else some (labels.getD (argminList distances) 0))
    let gap_clusters := (uniqueKeep labels).filter
      (fun l => !(tele2_clusters.contains l))
    let gap_coords := (all_coords.zip labels).filterMap
      (fun cl => if gap_clusters.contains cl.2 then some cl.1 else none)
    ⟨some gap_clusters.length, some gap_coords.length, gap_coords⟩

/-- One value of the `city_analysis` mapping of
`CoverageAnalyzer._analyze_city_coverage`. -/
structure CityStats where
  location_count : ℕ
  avg_rating : Option ℚ
  avg_reviews : Option ℚ
  deriving DecidableEq, Repr

/-- Embeds `pandas.Series.mean()`: the mean of the non-NaN cells, NaN (`none`)
when every cell is missing. -/
def seriesMean (cells : List (Option ℚ)) : Option ℚ :=
  let vs := cells.filterMap id
  if vs.isEmpty then none else some (vs.sum / vs.length)

/-- Embeds `CoverageAnalyzer._analyze_city_coverage`. -/
def analyze_city_coverage (df : List LocationRecord) : List (String × CityStats) :=
  (uniqueKeep (df.map (fun r => r.city))).map (fun city =>
    let city_df := cityRows df city
    (city, ⟨city_df.length,
            seriesMean (city_df.map (fun r => r.rating)),
            seriesMean (city_df.map (fun r => r.reviews_count))⟩))

/-- Embeds `CoverageAnalyzer._generate_coverage_recommendations`: a line when gap
locations were found, then one line per low/high density city, scanning the
metric entries in order. -/
def generate_coverage_recommendations (metrics : List (String × MetricVal))
    (gap_analysis : CoverageGapResult) : List String :=
  let gapRecs : List String :=
    if 0 < gap_analysis.gap_locations_count.getD 0 then
      ["Выявлено " ++ toString (gap_analysis.gap_locations_count.getD 0) ++
       " потенциальных белых пятен для размещения новых салонов"]
    else []
  let densityRecs : List String := metrics.flatMap (fun kv =>
    if kv.1.endsWith "_coverage_density" then
      let city := kv.1.replace "_coverage_density" ""
      if kv.2 == .str "Низкая" then
        ["В городе " ++ city ++ " низкая плотность покрытия. Рекомендуется открытие новых точек"]
      else if kv.2 == .str "Высокая" then
        ["В городе " ++ city ++ " высокая плотность покрытия. Возможна каннибализация трафика между точками"]
      else []
    else [])
  gapRecs ++ densityRecs

/-- The dict returned by `CoverageAnalyzer.analyze_coverage`. -/
structure CoverageResult where
  metrics : List (String × MetricVal)
  gaps : CoverageGapResult
  city_analysis : List (String × CityStats)
  recommendations : List String
  deriving DecidableEq, Repr

/-- Embeds `CoverageAnalyzer.analyze_coverage` with explicit state passing: the
second component is the caller's table after the call.  Every step of the
source either filters into a fresh frame or writes a column on an explicit
`.copy()`, so the input table comes back as it went in. -/
def analyze_coverage (dbscan : DbscanFn) (dist : Dist)
    (df : List LocationRecord) : CoverageResult × List LocationRecord :=
  let tele2_df := filter_tele2_locations df
  let coverage_metrics := calculate_coverage_metrics dist tele2_df
  let gap_analysis := identify_coverage_gaps dbscan dist df tele2_df
  let city_analysis := analyze_city_coverage tele2_df
  (⟨coverage_metrics, gap_analysis, city_analysis,
    generate_coverage_recommendations coverage_metrics gap_analysis⟩, df)

/-- Embeds `np.mean(distances)` over the pairwise city distances: the quantity the
density label of `_calculate_density_metrics` is computed from. -/
def cityAvgDistance (dist : Dist) (df : List LocationRecord) (city : String) : ℚ :=
  let distances := pairDists dist (cityCoords df city)
  distances.sum / distances.length

/-- A Python dict key as it occurs inside an `AnalysisResult`: a string, or
an integer (`DataClustering._interpret_clusters` keys its interpretation
dict by the integer cluster id). -/
inductive PyKey where
  | kstr (s : String)
  | kint (n : ℤ)
  deriving DecidableEq, Repr

/-- A JSON-serialisable Python value, the payload shape of an
`AnalysisResult` handed to `ReportGenerator._generate_json_report`: None,
bools, ints, floats, strings, lists, dicts.  Floats are modelled by `ℚ`
(`repr`-faithful serialisation). -/
inductive PyVal where
  | pnone
  | pbool (b : Bool)
  | pint (n : ℤ)
  | pfloat (q : ℚ)
  | pstr (s : String)
  | plist (l : List PyVal)
  | pdict (l : List (PyKey × PyVal))

/-- A JSON document tree as written by `json.dump` and reparsed by
`json.load` (`utils/file_operations.py`): object keys are strings only;
the lexical distinction between `5` and `5.0` keeps ints and floats
apart. -/
inductive JsonVal where
  | jnull
  | jbool (b : Bool)
  | jint (n : ℤ)
  | jfloat (q : ℚ)
  | jstr (s : String)
  | jarr (l : List JsonVal)
  | jobj (l : List (String × JsonVal))

/-- Embeds how `json.dump` coerces a non-string dict key to its decimal string. -/
def keyToString : PyKey → String
  | .kstr s => s
  | .kint n => toString n

mutual

/-- Embeds `json.dump` of `write_json` (`utils/file_operations.py`): structure is
copied verbatim, dict keys are coerced to strings. -/
def dump : PyVal → JsonVal
  | .pnone => .jnull
  | .pbool b => .jbool b
  | .pint n => .jint n
  | .pfloat q => .jfloat q
  | .pstr s => .jstr s
  | .plist l => .jarr (dumpList l)
  | .pdict l => .jobj (dumpDict l)

/-- Serialisation of a JSON array, element by element. -/
def dumpList : List PyVal → List JsonVal
  | [] => []
  | v :: vs => dump v :: dumpList vs

/-- Serialisation of a JSON object, pair by pair. -/
def dumpDict : List (PyKey × PyVal) → List (String × JsonVal)
  | [] => []
  | (k, v) :: kvs => (keyToString k, dump v) :: dumpDict kvs

end

/-- One step of dict construction, as `json.load` replays object pairs
into a Python dict: a repeated key keeps its first position and takes the
last value. -/
def dictInsert (acc : List (PyKey × PyVal)) (k : PyKey) (v : PyVal) :
    List (PyKey × PyVal) :=
  if acc.any (fun p => p.1 == k) then
    acc.map (fun p => if p.1 == k then (k, v) else p)
  else acc ++ [(k, v)]

/-- Dict construction from a pair list, in order. -/
def buildDict (l : List (PyKey × PyVal)) : List (PyKey × PyVal) :=
  l.foldl (fun acc kv => dictInsert acc kv.1 kv.2) []

mutual

/-- Embeds `json.load` of `read_json` (`utils/file_operations.py`): every object
key comes back as a string. -/
def load : JsonVal → PyVal
  | .jnull => .pnone
  | .jbool b => .pbool b
  | .jint n => .pint n
  | .jfloat q => .pfloat q
  | .jstr s => .pstr s
  | .jarr l => .plist (loadList l)
  | .jobj l => .pdict (buildDict (loadDict l))

/-- Parsing of a JSON array, element by element. -/
def loadList : List JsonVal → List PyVal
  | [] => []
  | v :: vs => load v :: loadList vs

/-- Parsing of the pair list of a JSON object. -/
def loadDict : List (String × JsonVal) → List (PyKey × PyVal)
  | [] => []
  | (k, v) :: kvs => (.kstr k, load v) :: loadDict kvs

end

mutual

/-- The values whose mappings all have string keys — pairwise distinct, as
the keys of a real Python dict are. -/
def strKeysOnly : PyVal → Bool
  | .pnone => true
  | .pbool _ => true
  | .pint _ => true
  | .pfloat _ => true
  | .pstr _ => true
  | .plist l => strKeysList l
  | .pdict l => decide ((l.map Prod.fst).Nodup) && strKeysDict l

/-- Conjunction of `strKeysOnly` over a list of values. -/
def strKeysList : List PyVal → Bool
  | [] => true
  | v :: vs => strKeysOnly v && strKeysList vs

/-- Conjunction of `strKeysOnly` over dict pairs: each key a string, each value ok. -/
def strKeysDict : List (PyKey × PyVal) → Bool
  | [] => true
  | (k, v) :: kvs =>
    (match k with | .kstr _ => true | .kint _ => false) &&
    strKeysOnly v && strKeysDict kvs

end

/-- Fixture: the constant distance function with value `q` km. -/
def distConst (q : ℚ) : Dist := fun _ _ => q

/-- Fixture: an own-brand row in Москва at the origin. -/
def recT2 : LocationRecord :=
  ⟨some "Tele2".toList, some "ул. Тверская 1".toList, "Москва",
   some 0, some 0, some 4, some 10, none, none, none, none⟩

/-- Fixture: a second own-brand row in Москва with coordinates. -/
def recT2b : LocationRecord :=
  ⟨some "Салон Т2".toList, some "ул. Тверская 2".toList, "Москва",
   some 1, some 1, some 5, some 3, none, none, none, none⟩

/-- Fixture: a two-row own-brand table in one city. -/
def dfMoscow : List LocationRecord := [recT2, recT2b]

/-- Fixture: a competitor row with coordinates. -/
def recMTS : LocationRecord :=
  ⟨some "МТС салон".toList, some "пр. Мира 5".toList, "Москва",
   some 10, some 10, some 4, none, none, none, none, none⟩

/-- Fixture: a one-row table holding only a competitor. -/
def dfCompetitorOnly : List LocationRecord := [recMTS]

/-- Fixture: the competitor together with an own-brand row. -/
def dfCompetitorAndT2 : List LocationRecord := [recMTS, recT2]

/-- Fixture: a developed-infrastructure row (3 shopping centers, 1 metro,
2 anchor tenants, 4 transit stops) with coordinates and no own-brand
name. -/
def recInfra : LocationRecord :=
  ⟨some "ТЦ Мега".toList, some "Ленинградское шоссе".toList, "Москва",
   some 5, some 5, none, none, some 3, some 1, some 2, some 4⟩

/-- Fixture: a one-row table holding only the developed area. -/
def dfInfra : List LocationRecord := [recInfra]

/-- Fixture: an own-brand row in the fixture city Тестоград. -/
def recPop : LocationRecord :=
  ⟨some "Tele2".toList, none, "Тестоград", none, none, none, none,
   none, none, none, none⟩

/-- Fixture: 15 own-brand rows in Тестоград. -/
def dfPop : List LocationRecord := List.replicate 15 recPop

/-- Fixture: a population reference with one city of 1,000,000. -/
def popTest : List (String × ℚ) := [("Тестоград", 1000000)]

/-- Fixture: an analysis-result-shaped value with string keys only. -/
def pyStrKeyed : PyVal :=
  .pdict [(.kstr "coverage", .pdict
             [(.kstr "total_locations", .pint 15),
              (.kstr "Москва_avg_distance_km", .pfloat (3/2))]),
          (.kstr "recommendations", .plist [.pstr "открыть новые точки"]),
          (.kstr "city", .pstr "Москва")]

/-- Fixture: an analysis-result-shaped value with the integer-keyed
cluster interpretation of `DataClustering._interpret_clusters`. -/
def pyClusterKeyed : PyVal :=
  .pdict [(.kstr "interpretation", .pdict
             [(.kint 0, .pdict [(.kstr "size", .pint 5)])])]

/-! ## Helper lemmas -/

/-- Membership law: `uniqueKeep` keeps exactly the members of the list. -/
theorem mem_uniqueKeep {α : Type} [DecidableEq α] :
    (l : List α) → (a : α) → (a ∈ uniqueKeep l ↔ a ∈ l)
  | [], a => by simp [uniqueKeep]
  | b :: rest, a => by
    rw [uniqueKeep]
    by_cases hab : a = b
    · subst hab; simp
    · simp only [List.mem_cons, hab, false_or]
      rw [mem_uniqueKeep (rest.filter (fun c => !(c == b))) a]
      simp [hab]
termination_by l _ => l.length
decreasing_by
  simp only [List.length_cons]
  exact Nat.lt_succ_of_le (List.length_filter_le _ _)

/-- At least two coordinates give at least one pairwise distance. -/
theorem pairDists_ne_nil (dist : Dist) (l : List (ℚ × ℚ)) (h : 2 ≤ l.length) :
    pairDists dist l ≠ [] := by
  match l, h with
  | c1 :: c2 :: rest, _ => simp [pairDists]

/-! ## Claim C1: efficiency score bucketing -/

/-- C1, counterexample: the claim asserts that every score, including
exactly 0, receives a named bucket (values outside `[0,25]` clamped).  In
the code, `pd.cut` with bins `[0,10,15,20,25]` leaves a score of exactly 0
outside every (left-open) bin, so it receives the missing label NaN rather
than a named bucket. -/
theorem C1_zero_score_unlabelled : efficiency_category 0 = none := by decide

/-- C1, amended: the predicted efficiency score is bucketed by
`pd.cut(bins=[0,10,15,20,25])` into Низкая on `(0,10]`, Средняя on
`(10,15]`, Высокая on `(15,20]`, Очень высокая on `(20,25]`, while any
score `≤ 0` or `> 25` is not clamped but receives the missing label
(`none`). -/
theorem C1_efficiency_bucketing (s : ℚ) :
    (efficiency_category s = some "Низкая" ↔ 0 < s ∧ s ≤ 10) ∧
    (efficiency_category s = some "Средняя" ↔ 10 < s ∧ s ≤ 15) ∧
    (efficiency_category s = some "Высокая" ↔ 15 < s ∧ s ≤ 20) ∧
    (efficiency_category s = some "Очень высокая" ↔ 20 < s ∧ s ≤ 25) ∧
    (efficiency_category s = none ↔ s ≤ 0 ∨ 25 < s) := by
  unfold efficiency_category
  split_ifs with h1 h2 h3 h4 <;>
    refine ⟨?_, ?_, ?_, ?_, ?_⟩ <;>
    simp_all <;>
    first
      | linarith
      | (constructor <;> linarith)
      | (intro hs; linarith)
      | (rcases le_or_lt s 0 with hs | hs
         · exact Or.inl hs
         · exact Or.inr (h4 (h3 (h2 (h1 hs)))))

/-! ## Claim C2: density classification -/

/-- C2, counterexample: the claim asserts that a mean pairwise distance of
exactly 2 km yields the Medium label; the code's `elif avg_distance > 2`
is strict, so exactly 2 falls to the `else` branch and is labelled
Высокая (High). -/
theorem C2_two_km_is_high : coverage_density 2 = "Высокая" := by decide

/-- C2, amended: for every city with at least 2 own-brand rows with valid
coordinates, the density metrics contain the city's label computed from
the mean pairwise distance, and the labelling is the strict partition
Высокая iff `d ≤ 2`, Средняя iff `2 < d ≤ 5`, Низкая iff `d > 5` (the
boundary 2 falls to High, not Medium). -/
theorem C2_density_partition (dist : Dist) (df : List LocationRecord) (city : String)
    (h : 2 ≤ (cityCoords df city).length) :
    ((city ++ "_coverage_density",
       MetricVal.str (coverage_density (cityAvgDistance dist df city)))
       ∈ calculate_density_metrics dist df) ∧
    (∀ d : ℚ,
      (coverage_density d = "Высокая" ∨ coverage_density d = "Средняя" ∨
        coverage_density d = "Низкая") ∧
      (coverage_density d = "Высокая" ↔ d ≤ 2) ∧
      (coverage_density d = "Средняя" ↔ 2 < d ∧ d ≤ 5) ∧
      (coverage_density d = "Низкая" ↔ 5 < d)) := by
  constructor
  · have h1 : cityCoords df city ≠ [] := by
      intro he
      rw [he] at h
      simp at h
    obtain ⟨c, hc⟩ := List.exists_mem_of_ne_nil _ h1
    obtain ⟨r, hr, _⟩ := List.mem_filterMap.mp hc
    have hrmem := List.mem_filter.mp hr
    have hcitymem : city ∈ uniqueKeep (df.map (fun r => r.city)) := by
      rw [mem_uniqueKeep]
      exact List.mem_map.mpr ⟨r, hrmem.1, by simpa using hrmem.2⟩
    unfold calculate_density_metrics
    rw [List.mem_flatMap]
    refine ⟨city, hcitymem, ?_⟩
    unfold density_city_entries
    have hlen : 1 < (cityRows df city).length := by
      calc 1 < 2 := by norm_num
        _ ≤ (cityCoords df city).length := h
        _ ≤ (cityRows df city).length := List.length_filterMap_le _ _
    have hne : (pairDists dist (cityCoords df city)).isEmpty = false := by
      rw [List.isEmpty_eq_false]
      exact pairDists_ne_nil dist _ h
    simp [hlen, hne, cityAvgDistance]
  · intro d
    unfold coverage_density
    split_ifs with h1 h2 <;>
      refine ⟨?_, ?_, ?_, ?_⟩ <;>
      simp_all <;>
      linarith

/-- C2, witness: on the two-row Москва fixture with a constant 3-km
distance the hypothesis holds, and the theorem puts the computed label in
the density metrics. -/
theorem C2_density_partition_witness :
    2 ≤ (cityCoords dfMoscow "Москва").length ∧
    (("Москва" ++ "_coverage_density",
       MetricVal.str (coverage_density (cityAvgDistance (distConst 3) dfMoscow "Москва")))
       ∈ calculate_density_metrics (distConst 3) dfMoscow) :=
  ⟨by decide, (C2_density_partition (distConst 3) dfMoscow "Москва" (by decide)).1⟩

/-! ## Claim C3: data-sparsity guards never raise -/

/-- C3: with zero own-brand rows the coverage metrics are the
empty-but-well-formed dict; with fewer than 10 feature rows the clustering
stage, and with fewer than 20 own-brand rows the modeling stage, return
the explicit empty result without invoking any underlying algorithm
(the result is `none` uniformly in the algorithm parameter). -/
theorem C3_data_sparsity_guards (df : List LocationRecord) (dist : Dist)
    (α β : Type) (clusterAlgos : List LocationRecord → α)
    (modelAlgos : List LocationRecord → β) :
    (filter_tele2_locations df = [] →
      calculate_coverage_metrics dist (filter_tele2_locations df) = []) ∧
    (prepare_clustering_rows df < 10 → perform_clustering clusterAlgos df = none) ∧
    ((filter_tele2_locations df).length < 20 → build_models modelAlgos df = none) := by
  refine ⟨?_, ?_, ?_⟩
  · intro h
    rw [h]
    simp [calculate_coverage_metrics]
  · intro h
    simp [perform_clustering, h]
  · intro h
    simp only [build_models]
    rw [if_pos h]

/-- C3, witness: the empty table triggers all three guards. -/
theorem C3_data_sparsity_guards_witness :
    (filter_tele2_locations [] = ([] : List LocationRecord) ∧
      calculate_coverage_metrics (distConst 0) (filter_tele2_locations []) = []) ∧
    (prepare_clustering_rows [] < 10 ∧
      perform_clustering (fun _ => (0 : ℕ)) [] = none) ∧
    ((filter_tele2_locations []).length < 20 ∧
      build_models (fun _ => (0 : ℕ)) [] = none) := by
  have h := C3_data_sparsity_guards [] (distConst 0) ℕ ℕ (fun _ => 0) (fun _ => 0)
  exact ⟨⟨rfl, h.1 rfl⟩, ⟨by decide, h.2.1 (by decide)⟩, ⟨by decide, h.2.2 (by decide)⟩⟩

/-! ## Claim C4: operator classification is total with own-brand precedence -/

/-- C4: for every name cell (including the empty string and the missing
value) the classifier returns exactly one of the five labels, the empty
string and the missing value map to Другой (Other), and whenever an
own-brand token occurs in the lowercased name — also alongside competitor
tokens — the result is Tele2, since the own-brand branch is tested
first. -/
theorem C4_operator_classification_total (name : NameCell) :
    (identify_operator name = "Tele2" ∨ identify_operator name = "МТС" ∨
     identify_operator name = "Билайн" ∨ identify_operator name = "МегаФон" ∨
     identify_operator name = "Другой") ∧
    identify_operator (some "".toList) = "Другой" ∧
    identify_operator none = "Другой" ∧
    ((containsSub "tele2".toList (lowerStr (strOfName name)) = true ∨
      containsSub "т2".toList (lowerStr (strOfName name)) = true) →
      identify_operator name = "Tele2") := by
  refine ⟨?_, by decide, by decide, ?_⟩
  · unfold identify_operator
    dsimp only
    split_ifs <;> simp
  · intro h
    unfold identify_operator
    dsimp only
    exact if_pos (by rcases h with h | h <;> rw [h] <;> simp)

/-- C4, witness: a name containing both the own-brand token and the МТС
token is classified Tele2. -/
theorem C4_operator_classification_total_witness :
    (containsSub "tele2".toList (lowerStr (strOfName (some "Tele2 МТС".toList))) = true ∨
     containsSub "т2".toList (lowerStr (strOfName (some "Tele2 МТС".toList))) = true) ∧
    identify_operator (some "Tele2 МТС".toList) = "Tele2" :=
  ⟨Or.inl (by decide),
   (C4_operator_classification_total (some "Tele2 МТС".toList)).2.2.2 (Or.inl (by decide))⟩

/-! ## Claim C10: the name filter agrees with the classifier -/

/-- The `Tele2|Т2` name filter coincides, cell by cell, with the test
`identify_operator name == "Tele2"`. -/
theorem tele2NameMatch_eq_classifier (name : NameCell) :
    tele2NameMatch name = (identify_operator name == "Tele2") := by
  cases name with
  | none => decide
  | some s =>
    unfold tele2NameMatch identify_operator
    simp only [strOfName]
    by_cases hc : (containsSub "tele2".toList (lowerStr s) ||
        containsSub "т2".toList (lowerStr s)) = true
    · rw [if_pos hc, hc]
      decide
    · rw [if_neg hc, Bool.eq_false_iff.mpr hc]
      split_ifs <;> decide

/-- C10: the case-insensitive `Tele2|Т2` substring filter selects exactly
the rows the operator classifier labels Tele2; rows with a missing name
are excluded by the filter and classified Другой (Other). -/
theorem C10_filter_agrees_with_classifier (df : List LocationRecord) (name : NameCell) :
    filter_tele2_locations df =
      df.filter (fun r => identify_operator r.name == "Tele2") ∧
    (tele2NameMatch name = true ↔ identify_operator name = "Tele2") ∧
    tele2NameMatch none = false ∧
    identify_operator none = "Другой" := by
  refine ⟨?_, ?_, by decide, by decide⟩
  · unfold filter_tele2_locations
    exact List.filter_congr (fun r _ => tele2NameMatch_eq_classifier r.name)
  · rw [tele2NameMatch_eq_classifier]
    simp

/-! ## Claims C5 and C6: competitive and infrastructure gaps -/

/-- The gap-loop body keeps a row iff its coordinates are present and every
own-brand coordinate is at distance `≥ radius`. -/
theorem keepGapRow_iff (dist : Dist) (radius : ℚ) (tcoords : List (ℚ × ℚ))
    (r : LocationRecord) :
    keepGapRow dist radius tcoords r = true ↔
    ∃ c, recCoords r = some c ∧ ∀ t ∈ tcoords, ¬ (dist c t < radius) := by
  unfold keepGapRow
  cases hco : recCoords r with
  | none => simp
  | some c => simp [hasNearbyTele2, List.any_eq_false]

/-- A NaN-tolerant comparison succeeds iff the cell is present and
strictly above the threshold. -/
theorem optGt_iff (cell : Option ℚ) (threshold : ℚ) :
    optGt cell threshold = true ↔ ∃ v, cell = some v ∧ threshold < v := by
  unfold optGt
  cases cell <;> simp

/-- C5: a row appears in `competitive_gaps.gap_areas` exactly when its
operator label is a competitor one (МТС, Билайн or МегаФон — so neither
own-brand nor Другой), its coordinates are present, and no own-brand
coordinate of the table lies strictly within 1.5 km; consequently a rerun
on a table whose own-brand rows reach within 1.5 km drops the row, and
every reported row contributes its entry to `gap_areas`. -/
theorem C5_competitive_gaps_iff (dist : Dist) (df : List LocationRecord)
    (r : LocationRecord) :
    (r ∈ analyze_competitive_gap_records dist df ↔
      r ∈ df ∧ isCompetitor r = true ∧
      ∃ c, recCoords r = some c ∧ ∀ t ∈ tele2_coords df, ¬ (dist c t < 3/2)) ∧
    (∀ c, recCoords r = some c →
      (∃ t ∈ tele2_coords df, dist c t < 3/2) →
      r ∉ analyze_competitive_gap_records dist df) ∧
    (r ∈ analyze_competitive_gap_records dist df →
      (⟨r.name, r.address, identify_operator r.name, r.rating⟩ : CompetitiveGapEntry)
        ∈ competitive_gap_areas dist df (tele2_coords df)) := by
  have key : r ∈ analyze_competitive_gap_records dist df ↔
      r ∈ df ∧ isCompetitor r = true ∧
      ∃ c, recCoords r = some c ∧ ∀ t ∈ tele2_coords df, ¬ (dist c t < 3/2) := by
    unfold analyze_competitive_gap_records competitive_gap_records competitor_areas
    rw [List.mem_filter, List.mem_filter, keepGapRow_iff, and_assoc]
  refine ⟨key, ?_, ?_⟩
  · intro c hc hnear hmem
    obtain ⟨-, -, c2, hc2, hfar⟩ := key.mp hmem
    rw [hc] at hc2
    injection hc2 with hcc
    subst hcc
    obtain ⟨t, ht, hlt⟩ := hnear
    exact hfar t ht hlt
  · intro hmem
    unfold competitive_gap_areas
    unfold analyze_competitive_gap_records at hmem
    exact List.mem_map_of_mem _ hmem

/-- C5, witness: with only the МТС row in the table the row is reported;
the removal clause applies on the table extended with a nearby own-brand
row under the constant 1-km distance. -/
theorem C5_competitive_gaps_iff_witness :
    recMTS ∈ analyze_competitive_gap_records (distConst 10) dfCompetitorOnly ∧
    recCoords recMTS = some (10, 10) ∧
    (∃ t ∈ tele2_coords dfCompetitorAndT2, distConst 1 (10, 10) t < 3/2) ∧
    recMTS ∉ analyze_competitive_gap_records (distConst 1) dfCompetitorAndT2 := by
  refine ⟨?_, by decide, ⟨(0, 0), by decide, by norm_num [distConst]⟩, ?_⟩
  · exact (C5_competitive_gaps_iff (distConst 10) dfCompetitorOnly recMTS).1.mpr
      ⟨by decide, by decide, (10, 10), by decide, by decide⟩
  · exact (C5_competitive_gaps_iff (distConst 1) dfCompetitorAndT2 recMTS).2.1
      (10, 10) (by decide) ⟨(0, 0), by decide, by norm_num [distConst]⟩

/-- C6: a row is selected by the infrastructure filter exactly when
shopping centers `> 2`, metro `> 0` and anchor tenants `> 1` (each cell
present); it is reported exactly when additionally its coordinates are
present and no own-brand coordinate lies strictly within 2.0 km; a row with
missing coordinates is skipped; every reported row contributes its entry,
whose score, for a present non-negative transit-stop count, equals
`shopping*2 + metro*3 + anchor*1.5 + min(transit*0.5, 3)`. -/
theorem C6_infrastructure_gaps_iff (dist : Dist) (df : List LocationRecord)
    (r : LocationRecord) :
    (r ∈ analyze_infrastructure_gap_records dist df ↔
      r ∈ df ∧
      (∃ v, r.nearby_shopping_centers_count = some v ∧ 2 < v) ∧
      (∃ v, r.nearby_metro_count = some v ∧ 0 < v) ∧
      (∃ v, r.anchor_tenants_count = some v ∧ 1 < v) ∧
      ∃ c, recCoords r = some c ∧ ∀ t ∈ tele2_coords df, ¬ (dist c t < 2)) ∧
    (recCoords r = none → r ∉ analyze_infrastructure_gap_records dist df) ∧
    (r ∈ analyze_infrastructure_gap_records dist df →
      (⟨r.name, r.address, infrastructure_score r⟩ : InfrastructureGapEntry)
        ∈ infrastructure_gap_areas dist df (tele2_coords df)) ∧
    (∀ s m a tr, r.nearby_shopping_centers_count = some s → 2 < s →
      r.nearby_metro_count = some m → 0 < m →
      r.anchor_tenants_count = some a → 1 < a →
      r.public_transport_stops_count = some tr → 0 ≤ tr →
      infrastructure_score r = s * 2 + m * 3 + a * (3/2) + min (tr * (1/2)) 3) := by
  have key : r ∈ analyze_infrastructure_gap_records dist df ↔
      r ∈ df ∧
      (∃ v, r.nearby_shopping_centers_count = some v ∧ 2 < v) ∧
      (∃ v, r.nearby_metro_count = some v ∧ 0 < v) ∧
      (∃ v, r.anchor_tenants_count = some v ∧ 1 < v) ∧
      ∃ c, recCoords r = some c ∧ ∀ t ∈ tele2_coords df, ¬ (dist c t < 2) := by
    unfold analyze_infrastructure_gap_records infrastructure_gap_records developed_areas
    rw [List.mem_filter, List.mem_filter, keepGapRow_iff]
    simp only [Bool.and_eq_true, optGt_iff]
    tauto
  refine ⟨key, ?_, ?_, ?_⟩
  · intro hco hmem
    obtain ⟨-, -, -, -, c, hc, -⟩ := key.mp hmem
    rw [hco] at hc
    exact Option.noConfusion hc
  · intro hmem
    unfold infrastructure_gap_areas
    unfold analyze_infrastructure_gap_records at hmem
    exact List.mem_map_of_mem _ hmem
  · intro s m a tr hs hs2 hm hm2 ha ha2 htr htr2
    unfold infrastructure_score scoreTerm
    rw [hs, hm, ha, htr]
    dsimp only
    rw [if_pos (by linarith : (0:ℚ) < s), if_pos (by linarith : (0:ℚ) < m),
        if_pos (by linarith : (0:ℚ) < a)]
    rcases lt_or_eq_of_le htr2 with h0 | h0
    · rw [if_pos h0]
    · rw [if_neg (by rw [← h0]; exact lt_irrefl 0), ← h0]
      norm_num

/-- C6, witness: the developed-area fixture (3 shopping centers, 1 metro
station, 2 anchor tenants, 4 transit stops) is reported as a gap on a
table with no own-brand row, and its score is
`3*2 + 1*3 + 2*1.5 + min(4*0.5, 3) = 14`. -/
theorem C6_infrastructure_gaps_iff_witness :
    recInfra ∈ analyze_infrastructure_gap_records (distConst 10) dfInfra ∧
    (recInfra.public_transport_stops_count = some 4 ∧ (0 : ℚ) ≤ 4) ∧
    infrastructure_score recInfra = 3 * 2 + 1 * 3 + 2 * (3/2) + min (4 * (1/2)) 3 := by
  refine ⟨?_, ⟨by decide, by norm_num⟩, ?_⟩
  · exact (C6_infrastructure_gaps_iff (distConst 10) dfInfra recInfra).1.mpr
      ⟨by decide, ⟨3, by decide, by norm_num⟩, ⟨1, by decide, by norm_num⟩,
       ⟨2, by decide, by norm_num⟩, (5, 5), by decide, by decide⟩
  · exact (C6_infrastructure_gaps_iff (distConst 10) dfInfra recInfra).2.2.2
      3 1 2 4 (by decide) (by norm_num) (by decide) (by norm_num)
      (by decide) (by norm_num) (by decide) (by norm_num)

/-! ## Claim C7: population gaps -/

/-- C7: every city of the population reference with positive population
gets an entry recording the own-brand row count of that city; the entry's
`per_100k` equals `N / P * 100000`, and the flag is Недостаточно
(Insufficient) exactly when `per_100k < 2`; a city absent from the
reference gets no entry. -/
theorem C7_population_gaps (popData : List (String × ℚ))
    (tele2_df : List LocationRecord) (city : String) (pop : ℚ) :
    ((city, pop) ∈ popData → 0 < pop →
      (city, mkPopulationEntry pop
        ((tele2_df.filter (fun r => r.city == city)).length))
        ∈ analyze_population_gaps popData tele2_df) ∧
    (∀ n : ℕ, (mkPopulationEntry pop n).per_100k = (n : ℚ) / pop * 100000 ∧
      ((mkPopulationEntry pop n).sufficiency = "Недостаточно" ↔
        (n : ℚ) / pop * 100000 < 2)) ∧
    ((∀ p : ℚ, (city, p) ∉ popData) →
      ∀ e : PopulationGapEntry, (city, e) ∉ analyze_population_gaps popData tele2_df) := by
  refine ⟨?_, ?_, ?_⟩
  · intro hmem hpos
    unfold analyze_population_gaps
    rw [List.mem_filterMap]
    exact ⟨(city, pop), hmem, by rw [if_pos hpos]⟩
  · intro n
    unfold mkPopulationEntry
    refine ⟨rfl, ?_⟩
    dsimp only
    split_ifs with h
    · constructor
      · intro habs
        exact absurd habs (by decide)
      · intro hlt
        exact absurd h (not_le.mpr hlt)
    · simp only [not_le] at h
      exact ⟨fun _ => h, fun _ => rfl⟩
  · intro habsent e hmem
    unfold analyze_population_gaps at hmem
    rw [List.mem_filterMap] at hmem
    obtain ⟨⟨c2, p2⟩, hp2, heq⟩ := hmem
    by_cases hpos : 0 < p2
    · rw [if_pos hpos] at heq
      have : c2 = city := congrArg Prod.fst (Option.some.injEq _ _ ▸ heq)
      exact habsent p2 (this ▸ hp2)
    · rw [if_neg hpos] at heq
      exact Option.noConfusion heq

/-- C7, witness: a reference city of 1,000,000 residents with 15 own-brand
rows gets the entry with `per_100k = 1.5`, flagged Недостаточно. -/
theorem C7_population_gaps_witness :
    ("Тестоград", (1000000 : ℚ)) ∈ popTest ∧ (0 : ℚ) < 1000000 ∧
    ("Тестоград", mkPopulationEntry 1000000
        ((dfPop.filter (fun r => r.city == "Тестоград")).length))
      ∈ analyze_population_gaps popTest dfPop ∧
    (mkPopulationEntry 1000000 15).per_100k = 3/2 ∧
    (mkPopulationEntry 1000000 15).sufficiency = "Недостаточно" :=
  ⟨by decide, by norm_num,
   (C7_population_gaps popTest dfPop "Тестоград" 1000000).1 (by decide) (by norm_num),
   by simp only [mkPopulationEntry]; norm_num,
   by simp only [mkPopulationEntry]; rw [if_neg (by norm_num)]⟩

/-! ## Claim C8: JSON round trip of an `AnalysisResult` -/

/-- Replaying pairs whose keys are fresh for the accumulator appends them
in order. -/
theorem foldl_dictInsert_app (l : List (PyKey × PyVal)) :
    ∀ acc : List (PyKey × PyVal),
    (∀ k ∈ l.map Prod.fst, ∀ p ∈ acc, p.1 ≠ k) →
    (l.map Prod.fst).Nodup →
    l.foldl (fun acc kv => dictInsert acc kv.1 kv.2) acc = acc ++ l := by
  induction l with
  | nil => intro acc _ _; simp
  | cons kv rest ih =>
    intro acc hdisj hnd
    obtain ⟨k, v⟩ := kv
    have hnotin : acc.any (fun p => p.1 == k) = false := by
      simp only [List.any_eq_false]
      intro p hp
      simpa using hdisj k (by simp) p hp
    have hstep : dictInsert acc k v = acc ++ [(k, v)] := by
      simp [dictInsert, hnotin]
    simp only [List.foldl_cons, hstep]
    rw [ih (acc ++ [(k, v)])]
    · simp
    · intro k2 hk2 p hp
      rcases List.mem_append.mp hp with hpa | hpb
      · exact hdisj k2 (by simp [hk2]) p hpa
      · simp only [List.mem_singleton] at hpb
        subst hpb
        simp only [List.map_cons, List.nodup_cons] at hnd
        simp only []
        intro hkk
        subst hkk
        exact hnd.1 hk2
    · simp only [List.map_cons, List.nodup_cons] at hnd
      exact hnd.2

/-- Dict construction is the identity on pair lists with distinct keys —
the shape every real Python dict serialises to. -/
theorem buildDict_nodup (l : List (PyKey × PyVal))
    (h : (l.map Prod.fst).Nodup) : buildDict l = l := by
  have := foldl_dictInsert_app l [] (by simp) h
  simpa [buildDict] using this

mutual

/-- Reading back a dumped value restores it when all its dict keys are
strings. -/
theorem load_dump : (v : PyVal) → strKeysOnly v = true → load (dump v) = v
  | .pnone, _ => rfl
  | .pbool b, _ => rfl
  | .pint n, _ => rfl
  | .pfloat q, _ => rfl
  | .pstr s, _ => rfl
  | .plist l, h => by
    have h1 : strKeysList l = true := by simpa [strKeysOnly] using h
    simp [dump, load, loadList_dumpList l h1]
  | .pdict l, h => by
    have h1 : ((l.map Prod.fst).Nodup : Prop) ∧ strKeysDict l = true := by
      simpa [strKeysOnly] using h
    simp [dump, load, loadDict_dumpDict l h1.2, buildDict_nodup l h1.1]

/-- Element-wise round trip of a list value. -/
theorem loadList_dumpList : (l : List PyVal) → strKeysList l = true →
    loadList (dumpList l) = l
  | [], _ => rfl
  | v :: vs, h => by
    have h1 : strKeysOnly v = true ∧ strKeysList vs = true := by
      simpa [strKeysList] using h
    simp [dumpList, loadList, load_dump v h1.1, loadList_dumpList vs h1.2]

/-- Pair-wise round trip of dict pairs with string keys. -/
theorem loadDict_dumpDict : (l : List (PyKey × PyVal)) → strKeysDict l = true →
    loadDict (dumpDict l) = l
  | [], _ => rfl
  | (k, v) :: kvs, h => by
    cases k with
    | kstr s =>
      have h1 : strKeysOnly v = true ∧ strKeysDict kvs = true := by
        simpa [strKeysDict] using h
      simp [dumpDict, loadDict, keyToString, load_dump v h1.1,
        loadDict_dumpDict kvs h1.2]
    | kint n =>
      exfalso
      simp [strKeysDict] at h

end

/-- C8, counterexample: the claim asserts the JSON round trip restores
every `AnalysisResult` with no change to keys or values; an
`AnalysisResult` containing the cluster interpretation, which is keyed by
integer cluster ids, comes back with the decimal-string keys that
`json.dump` writes, so it is not restored. -/
theorem C8_int_keys_not_roundtripped :
    load (dump pyClusterKeyed) ≠ pyClusterKeyed := by
  simp [pyClusterKeyed, load, dump, dumpList, dumpDict, loadList, loadDict,
    buildDict, dictInsert, keyToString]

/-- C8, amended: writing an `AnalysisResult` with `write_json` and reading
it back with `read_json` restores it exactly, provided all of its mapping
keys are strings (they are pairwise distinct in each mapping, as Python
dict keys are); integer-keyed mappings such as the cluster interpretation
are instead read back with string keys. -/
theorem C8_json_roundtrip (v : PyVal) (h : strKeysOnly v = true) :
    load (dump v) = v :=
  load_dump v h

/-- C8, witness: a string-keyed analysis-result-shaped value round-trips
unchanged. -/
theorem C8_json_roundtrip_witness :
    strKeysOnly pyStrKeyed = true ∧ load (dump pyStrKeyed) = pyStrKeyed :=
  ⟨rfl, C8_json_roundtrip pyStrKeyed rfl⟩

/-! ## Claim C9: coverage analysis is pure and deterministic -/

/-- C9: `analyze_coverage` hands the caller's table back unchanged (the
source's only column write happens on an explicit copy), so a second run
on the returned table sees the same input and produces the identical
result — metrics, density labels, gap lists, city stats and
recommendations alike. -/
theorem C9_coverage_idempotent (dbscan : DbscanFn) (dist : Dist)
    (df : List LocationRecord) :
    (analyze_coverage dbscan dist df).2 = df ∧
    analyze_coverage dbscan dist ((analyze_coverage dbscan dist df).2) =
      analyze_coverage dbscan dist df :=
  ⟨rfl, rfl⟩

end T2
